import Mathlib

set_option autoImplicit false

/-!
Verification development for the sylph contract-validating API client
subsystem (sylph_proj.data_obj and sylph_proj.wrappers).  Python runtime
values, dictionaries, exceptions and the library entry points are modelled
as executable Lean definitions; stateful driver code is modelled by
explicit state passing, and every fallible Python operation returns an
Except value whose error constructor names the Python exception raised.
All string machinery is written over character lists by structural
recursion so that every definition reduces inside the kernel.
-/

namespace Sylph

/-! ## Reducible string utilities -/

/-- Character list of a string. -/
def chars (s : String) : List Char := s.data

/-- String from a character list. -/
def ofChars (cs : List Char) : String := String.mk cs

/-- Suffix of the haystack strictly after the first occurrence of the
    needle, or none when the needle does not occur.  Models both a regex
    search for a literal pattern and the second element of a Python
    str.split when combined with a terminator cut. -/
def afterFirst (needle : List Char) : List Char → Option (List Char)
  | [] => if needle.isEmpty then some [] else none
  | c :: rest =>
    if needle.isPrefixOf (c :: rest) then some (List.drop needle.length (c :: rest))
    else afterFirst needle rest

/-- Does the needle occur inside the haystack. -/
def containsSub (needle hay : List Char) : Bool := (afterFirst needle hay).isSome

/-- Characters before the first occurrence of the terminator. -/
def takeUntilChar (ch : Char) : List Char → List Char
  | [] => []
  | c :: rest => if c = ch then [] else c :: takeUntilChar ch rest

/-- Suffix starting at the first occurrence of the marker character,
    or the empty list when the marker does not occur. -/
def fromFirstChar (ch : Char) : List Char → List Char
  | [] => []
  | c :: rest => if c = ch then c :: rest else fromFirstChar ch rest

/-- Python str.split on a single-character separator (always nonempty). -/
def splitOnChar (ch : Char) : List Char → List (List Char)
  | [] => [[]]
  | c :: rest =>
    let r := splitOnChar ch rest
    if c = ch then [] :: r
    else
      match r with
      | [] => [[c]]
      | g :: gs => (c :: g) :: gs

/-- Whitespace recognizer for Python int() argument stripping. -/
def isPySpace (c : Char) : Bool := c = ' ' || c = '\t' || c = '\n' || c = '\r'

/-- Digit-run parser: consumes the whole list, none on any non-digit or on
    an empty run (the accumulator starts absent). -/
def parseDigits : List Char → Option Nat → Option Nat
  | [], acc => acc
  | c :: rest, acc =>
    if c.isDigit then parseDigits rest (some ((acc.getD 0) * 10 + (c.toNat - 48)))
    else none

/-- Python int(str) on character lists: strips surrounding whitespace,
    accepts one optional sign, then requires a nonempty digit run.
    (Digit-group underscores, accepted by CPython, are not modelled; no
    claim exercises them.) -/
def pyParseInt (cs : List Char) : Option Int :=
  let t := ((cs.dropWhile isPySpace).reverse.dropWhile isPySpace).reverse
  match t with
  | '-' :: ds => (parseDigits ds none).map (fun n => -(n : Int))
  | '+' :: ds => (parseDigits ds none).map (fun n => (n : Int))
  | ds => (parseDigits ds none).map (fun n => (n : Int))

/-- Path component of urllib.parse.urlsplit for the URL shapes the driver
    meets: the fragment and query are cut, a scheme://netloc head is
    dropped up to the first slash of the authority, and a URL with no
    scheme separator is taken as a bare path. -/
def urlsplitPathL (cs : List Char) : List Char :=
  let s := takeUntilChar '?' (takeUntilChar '#' cs)
  match afterFirst (chars "://") s with
  | none => s
  | some after => fromFirstChar '/' after

/-- Path component of urlsplit, as a string. -/
def urlsplitPath (url : String) : String := ofChars (urlsplitPathL (chars url))

/-! ## Python values and exceptions -/

/-- SVal models a Python runtime value as it occurs inside sylph data
    envelopes: JSON scalars, lists, dictionaries (insertion-ordered
    association lists) and nested SylphDataObject instances.  An objv
    carries the object class name, its metadata.source_data dictionary
    entries and its instance attributes. -/
inductive SVal : Type where
  | null  : SVal
  | boolv : Bool → SVal
  | intv  : Int → SVal
  | strv  : String → SVal
  | listv : List SVal → SVal
  | dictv : List (String × SVal) → SVal
  | objv  : String → List (String × SVal) → List (String × SVal) → SVal

/-- Raised Python exception, tagged with the payload the sylph code
    inspects about it. -/
inductive PyErr : Type where
  | attributeError  : String → PyErr
  | jsonDecodeError : PyErr
  | sylphObjectInit : String → PyErr
  | indexError      : PyErr
  | keyError        : String → PyErr
  | assertionError  : String → PyErr
deriving DecidableEq

/-! ## Metadata resolver: try_get_api_version (data_obj.py) -/

/-- set_version(ver_str): returns int(ver_str) when that parses, else the
    raw string. -/
def set_version (s : String) : SVal :=
  match pyParseInt (chars s) with
  | some n => .intv n
  | none => .strv s

/-- Body of the try block of try_get_api_version: regex-search the split
    path for api/v; on a hit take the text after the first /api/v up to
    the next slash, split it on dots and convert each component with
    set_version.  Splitting the path on /api/v without a second part
    raises IndexError (a match not preceded by a slash). -/
def tryGetApiVersionBody (url : String) :
    Except PyErr (Option SVal × Option SVal × Option SVal) :=
  let path := urlsplitPathL (chars url)
  if containsSub (chars "api/v") path then
    match afterFirst (chars "/api/v") path with
    | none => .error .indexError
    | some suffix =>
      let comps := splitOnChar '.' (takeUntilChar '/' suffix)
      match comps with
      | [] => .error .indexError
      | c0 :: restComps =>
        let v1 := set_version (ofChars c0)
        let v2 := match restComps with
          | c1 :: _ => some (set_version (ofChars c1))
          | [] => none
        let v3 := match restComps with
          | _ :: c2 :: _ => some (set_version (ofChars c2))
          | _ => none
        .ok (some v1, v2, v3)
  else .ok (none, none, none)

/-- try_get_api_version(url): the whole body runs under a bare except that
    converts any failure into the all-absent triple. -/
def try_get_api_version (url : String) : Option SVal × Option SVal × Option SVal :=
  match tryGetApiVersionBody url with
  | .ok t => t
  | .error _ => (none, none, none)

/-! ## Python dictionaries as insertion-ordered association lists -/

/-- First-match association lookup (Python attribute and key lookup). -/
def lookupA : List (String × SVal) → String → Option SVal
  | [], _ => none
  | (k, v) :: rest, key => if k = key then some v else lookupA rest key

/-- Key list of a dictionary. -/
def keysOf (es : List (String × SVal)) : List String := es.map Prod.fst

/-- Python dict assignment d[key] = v: an existing key keeps its position
    and gets the new value, a fresh key is appended. -/
def dAssign : List (String × SVal) → String → SVal → List (String × SVal)
  | [], key, v => [(key, v)]
  | (k, w) :: rest, key, v =>
    if k = key then (k, v) :: rest else (k, w) :: dAssign rest key v

/-- The copy loop of SylphDataDict.__init__: for keyname in data.keys(),
    self[keyname] = data[keyname]. -/
def pyDictCopy (data : List (String × SVal)) : List (String × SVal) :=
  data.foldl (fun acc kv => dAssign acc kv.1 kv.2) []

/-! ## Data envelope model (data_obj.py) -/

/-- SylphDataGenerator enumeration. -/
inductive SylphDataGenerator : Type where
  | AUTOMATION_CODE | API_REQUEST | APP_UI_INSPECTION
deriving DecidableEq

/-- Value held by SylphRequestMetadata.source_data: initialized to None,
    set to the Python list [] by the bare SylphDataObject constructor, to
    a dictionary by the data path, and to whatever json.loads produced by
    the response path (nonDict when that was not a dictionary). -/
inductive SourceData : Type where
  | noneV : SourceData
  | emptyList : SourceData
  | dict : List (String × SVal) → SourceData
  | nonDict : SVal → SourceData

/-- SylphRequestMetadata with every field at its constructor default. -/
structure SylphRequestMetadata : Type where
  data_generator : Option SylphDataGenerator := none
  request_url    : Option String := none
  request_hdr    : Option (List (String × String)) := none
  api_version    : Option SVal := none
  api_minor_v    : Option SVal := none
  api_patch_v    : Option SVal := none
  source_data    : SourceData := .noneV

/-- The data_source argument of SylphDataDict.__init__: a generator tag,
    an existing metadata instance, or a value of any other type (for which
    neither isinstance branch runs, so no metadata attribute is set). -/
inductive DataSourceArg : Type where
  | generator : SylphDataGenerator → DataSourceArg
  | metadata  : SylphRequestMetadata → DataSourceArg
  | otherObj  : DataSourceArg

/-- A constructed SylphDataDict: its (possibly missing) metadata attribute
    and its own dictionary entries. -/
structure SylphDataDictV : Type where
  metadata : Option SylphRequestMetadata
  entries  : List (String × SVal)

/-- SylphDataDict.__init__(data_source, data): a generator yields fresh
    metadata tagged with it; an existing metadata instance is deep-copied
    and its source_data set to the incoming dict; any other data_source
    leaves the metadata attribute unset.  The entries are copied key by
    key. -/
def SylphDataDict.make (data_source : DataSourceArg) (data : List (String × SVal)) :
    SylphDataDictV :=
  { metadata :=
      match data_source with
      | .generator g => some { data_generator := some g }
      | .metadata m  => some { m with source_data := .dict data }
      | .otherObj    => none
    entries := pyDictCopy data }

/-- The data argument of SylphDataObject.__init__: either a SylphDataDict
    instance or a value of any other type. -/
inductive DataArg : Type where
  | nonSylph : DataArg
  | sylph : SylphDataDictV → DataArg

/-- Body bytes of an HTTP response, abstracted by their JSON decoding
    outcome: json v when the bytes decode to the value v, raw s when
    json.loads raises JSONDecodeError on them (s is response.text). -/
inductive PyContent : Type where
  | json : SVal → PyContent
  | raw : String → PyContent

/-- The response-shaped transport object (requests.Response capability
    surface used by the code under audit). -/
structure PyResponse : Type where
  ok : Bool
  status_code : Int
  reason : Option String
  text : String
  url : String
  headers : List (String × String) := []
  content : PyContent

/-- Python len(response.content) > 0. -/
def PyContent.nonEmpty : PyContent → Bool
  | .json _ => true
  | .raw s => s ≠ ""

/-- json.loads(response.content.decode(utf-8)). -/
def PyContent.loads : PyContent → Except PyErr SVal
  | .json v => .ok v
  | .raw _ => .error .jsonDecodeError

/-- A constructed SylphDataObject (or subclass) instance: its class name
    and its metadata attribute. -/
structure SylphDataObjectV : Type where
  className : String := "SylphDataObject"
  metadata : SylphRequestMetadata

/-- SylphDataObject.__init__(response, data).  Both arguments raises
    SylphObjectInitException; neither yields an automation-tagged object
    whose source_data is the Python list []; a non-SylphDataDict data
    raises SylphObjectInitException; a SylphDataDict without a metadata
    attribute raises AttributeError at copy.deepcopy(data.metadata); a
    response fills the metadata from the URL version triple, the response
    headers and the JSON-decoded body (propagating JSONDecodeError). -/
def SylphDataObject.init (response : Option PyResponse) (data : Option DataArg) :
    Except PyErr SylphDataObjectV :=
  match response, data with
  | some _, some _ => .error (.sylphObjectInit "Must be either a Response or a SylphDataDict")
  | none, none =>
    .ok { metadata := { data_generator := some .AUTOMATION_CODE, source_data := .emptyList } }
  | none, some .nonSylph =>
    .error (.sylphObjectInit "If data is provided, it must be a SylphDataDict")
  | none, some (.sylph d) =>
    match d.metadata with
    | none => .error (.attributeError "metadata")
    | some m => .ok { metadata := { m with source_data := .dict d.entries } }
  | some r, none =>
    match r.content.loads with
    | .error e => .error e
    | .ok v =>
      let triple := try_get_api_version r.url
      .ok { metadata :=
        { data_generator := some .API_REQUEST
          request_url := some r.url
          request_hdr := some r.headers
          api_version := triple.1
          api_minor_v := triple.2.1
          api_patch_v := triple.2.2
          source_data := match v with | .dictv es => .dict es | w => .nonDict w } }

/-! ## dump_data -/

mutual

/-- Dictionary rendered by SylphDataObject.dump_data: each value that is
    itself a SylphDataObject is replaced by its own dump_data dictionary,
    every other value passes through unchanged. -/
def dumpEntries : List (String × SVal) → List (String × SVal)
  | [] => []
  | (k, v) :: rest => (k, dumpTop v) :: dumpEntries rest

/-- One value position of dump_data. -/
def dumpTop : SVal → SVal
  | .objv _ src _ => .dictv (dumpEntries src)
  | v => v

end

/-- SylphDataObject.dump_data(): iterates self.metadata.source_data.keys().
    When source_data is the Python list [] (bare construction) or None,
    the .keys() attribute access raises AttributeError. -/
def SylphDataObject.dump_data (o : SylphDataObjectV) :
    Except PyErr (List (String × SVal)) :=
  match o.metadata.source_data with
  | .dict es => .ok (dumpEntries es)
  | .noneV => .error (.attributeError "keys")
  | .emptyList => .error (.attributeError "keys")
  | .nonDict _ => .error (.attributeError "keys")

/-! ## get_unprocessed_data (schema-drift audit) -/

mutual

/-- Structural size of a Python value (computable measure for the fuel
    bounds below). -/
def svalSize : SVal → Nat
  | .null => 1
  | .boolv _ => 1
  | .intv _ => 1
  | .strv _ => 1
  | .listv xs => 1 + svalListSize xs
  | .dictv es => 1 + entriesSize es
  | .objv _ s a => 1 + entriesSize s + entriesSize a

/-- Structural size of a list of Python values. -/
def svalListSize : List SVal → Nat
  | [] => 0
  | v :: r => svalSize v + svalListSize r

/-- Structural size of a dictionary. -/
def entriesSize : List (String × SVal) → Nat
  | [] => 0
  | (_, v) :: r => 1 + svalSize v + entriesSize r

end

/-- Size bound for association-list lookup results: a value found in a
    dictionary is smaller than the dictionary. -/
def lookupA_size_lt : ∀ (es : List (String × SVal)) (key : String) (v : SVal),
    lookupA es key = some v → svalSize v < entriesSize es := by
  intro es key v h
  induction es with
  | nil => simp [lookupA] at h
  | cons hd tl ih =>
    obtain ⟨k, w⟩ := hd
    by_cases hk : k = key
    · simp [lookupA, hk] at h
      subst h
      simp [entriesSize]
      omega
    · simp [lookupA, hk] at h
      have := ih h
      simp [entriesSize]
      omega

mutual

/-- Loop of SylphDataObject.get_unprocessed_data over the source_data
    entries of an object whose class name is cn and whose attribute
    dictionary is attrs.  A key with a same-named attribute contributes
    nothing unless the attribute value is itself a data object, in which
    case that object is audited into the accumulator; a key without an
    attribute whose value is a dict is audited sub-key by sub-key; any
    other key without an attribute is reported as cn.key.  The recursion
    through nested object attributes follows the Python object graph
    (finite here), so it is paced by a fuel argument that every theorem
    instantiates above the provably sufficient structural bound. -/
def auditEntriesF : Nat → String → List (String × SVal) →
    List (String × SVal) → List String → List String
  | 0, _, _, _, acc => acc
  | fuel + 1, cn, attrs, es, acc =>
    match es with
    | [] => acc
    | (k, v) :: rest =>
      auditEntriesF fuel cn attrs rest
        (match lookupA attrs k with
         | some (.objv cn2 src2 attrs2) => auditEntriesF fuel cn2 attrs2 src2 acc
         | some _ => acc
         | none =>
           match v with
           | .dictv sub => auditSubF fuel cn attrs sub acc
           | _ => acc ++ [cn ++ "." ++ k])

/-- Sub-key loop of get_unprocessed_data for a dict-valued source entry:
    a sub-key with a same-named data-object attribute is audited
    recursively, a sub-key with any other same-named attribute contributes
    nothing, an unmatched sub-key is reported as cn.subkey. -/
def auditSubF : Nat → String → List (String × SVal) →
    List (String × SVal) → List String → List String
  | 0, _, _, _, acc => acc
  | fuel + 1, cn, attrs, sub, acc =>
    match sub with
    | [] => acc
    | (sk, _) :: rest =>
      auditSubF fuel cn attrs rest
        (match lookupA attrs sk with
         | some (.objv cn2 src2 attrs2) => auditEntriesF fuel cn2 attrs2 src2 acc
         | some _ => acc
         | none => acc ++ [cn ++ "." ++ sk])

end

/-- get_unprocessed_data on an object with class name cn, backing payload
    src and attribute dictionary attrs, with the default accumulator and
    sufficient fuel. -/
def get_unprocessed_data (cn : String) (src attrs : List (String × SVal)) : List String :=
  auditEntriesF (entriesSize attrs + entriesSize src + 1) cn attrs src []

mutual

/-- Modelled from the spec: the declared type covers the payload.  Every
    payload key either has a same-named attribute (recursively covered
    when that attribute is a nested data object), or is dict-valued with
    every sub-key likewise matched by an attribute.  Paced by the same
    fuel discipline as the audit. -/
def coversEntriesF : Nat → List (String × SVal) → List (String × SVal) → Bool
  | 0, _, _ => true
  | fuel + 1, attrs, es =>
    match es with
    | [] => true
    | (k, v) :: rest =>
      (match lookupA attrs k with
       | some (.objv _ src2 attrs2) => coversEntriesF fuel attrs2 src2
       | some _ => true
       | none =>
         match v with
         | .dictv sub => coversSubF fuel attrs sub
         | _ => false) && coversEntriesF fuel attrs rest

/-- Modelled from the spec: every sub-key of a dict-valued payload entry
    is matched by a same-named attribute (recursively, for data-object
    attributes). -/
def coversSubF : Nat → List (String × SVal) → List (String × SVal) → Bool
  | 0, _, _ => true
  | fuel + 1, attrs, sub =>
    match sub with
    | [] => true
    | (sk, _) :: rest =>
      (match lookupA attrs sk with
       | some (.objv _ src2 attrs2) => coversEntriesF fuel attrs2 src2
       | some _ => true
       | none => false) && coversSubF fuel attrs rest

end

/-- The declared type covers the payload (top level entry point). -/
def coversPayload (src attrs : List (String × SVal)) : Bool :=
  coversEntriesF (entriesSize attrs + entriesSize src + 1) attrs src

mutual

/-- Accumulator-free restatement of the audit loop (proved equal to the
    accumulator form below); used to reason about the audit output. -/
def auditPureF : Nat → String → List (String × SVal) → List (String × SVal) → List String
  | 0, _, _, _ => []
  | fuel + 1, cn, attrs, es =>
    match es with
    | [] => []
    | (k, v) :: rest =>
      (match lookupA attrs k with
       | some (.objv cn2 src2 attrs2) => auditPureF fuel cn2 attrs2 src2
       | some _ => []
       | none =>
         match v with
         | .dictv sub => auditSubPureF fuel cn attrs sub
         | _ => [cn ++ "." ++ k]) ++ auditPureF fuel cn attrs rest

/-- Accumulator-free restatement of the sub-key loop. -/
def auditSubPureF : Nat → String → List (String × SVal) → List (String × SVal) → List String
  | 0, _, _, _ => []
  | fuel + 1, cn, attrs, sub =>
    match sub with
    | [] => []
    | (sk, _) :: rest =>
      (match lookupA attrs sk with
       | some (.objv cn2 src2 attrs2) => auditPureF fuel cn2 attrs2 src2
       | some _ => []
       | none => [cn ++ "." ++ sk]) ++ auditSubPureF fuel cn attrs rest

end

/-! ## Python truthiness and rendering helpers -/

/-- Python truthiness of a value. -/
def pyTruthy : SVal → Bool
  | .null => false
  | .boolv b => b
  | .intv n => n ≠ 0
  | .strv s => s ≠ ""
  | .listv [] => false
  | .listv _ => true
  | .dictv [] => false
  | .dictv _ => true
  | .objv _ _ _ => true

/-- Single decimal digit character. -/
def digitChar (d : Nat) : String := String.singleton (Char.ofNat (48 + d))

/-- Decimal rendering of a natural number, paced by fuel (structural, so
    it reduces in the kernel). -/
def natStrAux : Nat → Nat → String
  | 0, _ => ""
  | _ + 1, n => if n < 10 then digitChar n else natStrAux n (n / 10) ++ digitChar (n % 10)

/-- Decimal rendering of a natural number. -/
def natStr (n : Nat) : String := natStrAux (n + 1) n

/-- Decimal rendering of an integer. -/
def intStr : Int → String
  | .ofNat n => natStr n
  | .negSucc n => "-" ++ natStr (n + 1)

/-- Single-quote character, built by code point to keep source lexing
    simple. -/
def sq : String := String.singleton (Char.ofNat 39)

mutual

/-- Python str()/f-string rendering of a value (scalars exact; container
    elements use a repr-like quoting without escape handling, which no
    audited property inspects). -/
def pyStrOf : SVal → String
  | .null => "None"
  | .boolv true => "True"
  | .boolv false => "False"
  | .intv n => intStr n
  | .strv s => s
  | .listv xs => "[" ++ reprListOf xs ++ "]"
  | .dictv es => reprEntriesOf es
  | .objv cn _ _ => "<" ++ cn ++ " instance>"

/-- Comma-joined repr of list elements. -/
def reprListOf : List SVal → String
  | [] => ""
  | [v] => reprOf v
  | v :: rest => reprOf v ++ ", " ++ reprListOf rest

/-- Brace-free dict body rendering (the audited messages never inspect
    it). -/
def reprEntriesOf : List (String × SVal) → String
  | [] => ""
  | [(k, v)] => sq ++ k ++ sq ++ ": " ++ reprOf v
  | (k, v) :: rest => sq ++ k ++ sq ++ ": " ++ reprOf v ++ ", " ++ reprEntriesOf rest

/-- Python repr rendering of a value (strings quoted). -/
def reprOf : SVal → String
  | .strv s => sq ++ s ++ sq
  | v => pyStrOf v

end

/-! ## ResponseError and ContractViolation (data_obj.py) -/

/-- Fields of a constructed ResponseError instance. -/
structure ResponseErrorV : Type where
  ok : Bool
  error_code : SVal
  error_message : SVal
  status_code : SVal
  reason : SVal

/-- ResponseError(response=r): SylphDataObject.__init__ decodes the body;
    a JSON body succeeds, after which the unconditional reads of the never
    assigned self._src raise AttributeError; a non-JSON body raises
    JSONDecodeError inside super().__init__, which the except branch turns
    into the fallback _src of status code and reason, after which the
    field assignments complete (an error_message that is falsy, that is a
    None or empty reason, falls back to response.text). -/
def ResponseError.fromResponse (r : PyResponse) : Except PyErr ResponseErrorV :=
  match r.content with
  | .json _ => .error (.attributeError "_src")
  | .raw _ =>
    let reasonV : SVal := match r.reason with | some s => .strv s | none => .null
    let em := if pyTruthy reasonV then reasonV else .strv r.text
    .ok { ok := false
          error_code := .intv r.status_code
          error_message := em
          status_code := .intv r.status_code
          reason := reasonV }

/-- ResponseError(data=d): the data path of SylphDataObject.__init__ never
    raises JSONDecodeError, so self._src is never assigned and the read of
    self._src raises AttributeError (after AttributeError on d.metadata
    when the SylphDataDict lacks metadata). -/
def ResponseError.fromData (d : SylphDataDictV) : Except PyErr ResponseErrorV :=
  match d.metadata with
  | none => .error (.attributeError "metadata")
  | some _ => .error (.attributeError "_src")

/-- Fields of a constructed ContractViolation instance. -/
structure ContractViolationV : Type where
  dto_name : SVal
  dto_path : SVal
  dto_exc : SVal

/-- ContractViolation(data=d): SylphDataObject.__init__ runs the data
    path, then the three dto_* fields are read from source_data (KeyError
    when absent). -/
def ContractViolation.fromData (d : SylphDataDictV) : Except PyErr ContractViolationV :=
  match d.metadata with
  | none => .error (.attributeError "metadata")
  | some _ =>
    match lookupA d.entries "dto_name" with
    | none => .error (.keyError "dto_name")
    | some n =>
      match lookupA d.entries "dto_path" with
      | none => .error (.keyError "dto_path")
      | some p =>
        match lookupA d.entries "dto_exc" with
        | none => .error (.keyError "dto_exc")
        | some e => .ok { dto_name := n, dto_path := p, dto_exc := e }

/-! ## SylphApiDriver and SylphApiClient (wrappers.py) -/

/-- A raised Python exception as the contract plumbing observes it: its
    type name and its args tuple (string arguments). -/
structure PyExcV : Type where
  typeName : String
  args : List String
deriving DecidableEq

/-- The DTO class object as process_contract_exception observes it:
    dto.__name__ and the module path str(dto).split()[-1][1:-2]. -/
structure DtoInfo : Type where
  name : String
  path : String
deriving DecidableEq

/-- A requests.RequestException as the except handler of send_request
    observes it: the exception type name, exc.request.url (absent when
    exc.request is None, making the attribute access raise), and
    exc.args[0].args[0] (absent when the args chain does not have that
    shape, making the subscript or attribute access raise). -/
structure ReqExcV : Type where
  typeName : String
  requestUrl : Option String
  firstArgFirstArg : Option String

/-- Outcome of the one requests.request call inside send_request. -/
inductive TransportResult : Type where
  | resp : PyResponse → TransportResult
  | raises : ReqExcV → TransportResult

/-- Mutable fields of a SylphApiDriver that the audited behavior touches.
    base_url and the header/payload bookkeeping are set but never read by
    the audited properties and are not modelled.  response_error is a
    class-level annotation only, so the attribute is absent (none) until a
    failure path first assigns it. -/
structure DriverState : Type where
  method : SVal := .null
  target : SVal := .null
  response_error : Option ResponseErrorV := none
  contract_error : ContractViolationV := { dto_name := .null, dto_path := .null, dto_exc := .null }

/-- Driver state as SylphApiDriver.__init__ leaves it: the empty
    ContractViolation built from the all-None dict. -/
def SylphApiDriver.initState : DriverState := {}

/-- process_contract_exception(exc, dto): reads exc.args[0] (IndexError on
    an exception with an empty args tuple), builds the dto_* dict, wraps
    it in a SylphDataDict tagged API_REQUEST and overwrites the violation
    slot with the ContractViolation built from it. -/
def process_contract_exception (st : DriverState) (exc : PyExcV) (dto : Option DtoInfo) :
    Except PyErr DriverState :=
  match exc.args with
  | [] => .error .indexError
  | a :: _ =>
    let dto_exc := exc.typeName ++ (": " ++ a)
    let entries : List (String × SVal) :=
      [("dto_name", match dto with | some d => .strv d.name | none => .null),
       ("dto_path", match dto with | some d => .strv d.path | none => .null),
       ("dto_exc", .strv dto_exc)]
    match ContractViolation.fromData (SylphDataDict.make (.generator .API_REQUEST) entries) with
    | .error e => .error e
    | .ok cv => .ok { st with contract_error := cv }

/-- validate_contract(): asserts that the recorded violation has a None
    exception description; otherwise raises AssertionError with the
    method, the target path, the right-aligned Issue label and the
    violation text (prefixed by the dto name when that is truthy). -/
def validate_contract (st : DriverState) : Except PyErr Unit :=
  let excV := st.contract_error.dto_exc
  let msgPart : String :=
    if pyTruthy st.contract_error.dto_name then
      pyStrOf st.contract_error.dto_name ++ (" " ++ pyStrOf excV)
    else pyStrOf excV
  match excV with
  | .null => .ok ()
  | _ =>
    .error (.assertionError
      (pyStrOf st.method ++ (" " ++ (pyStrOf st.target ++ ("\n         Issue: " ++ msgPart)))))

/-- Representative argument text of a CPython JSONDecodeError (the real
    text carries a position; no audited property inspects it). -/
def jsonDecodeArg : String := "Expecting value: line 1 column 1 (char 0)"

/-- Is the decoded value a Python dict. -/
def isDictV : SVal → Bool
  | .dictv _ => true
  | _ => false

/-- What send_request returns: the requests.Response itself, or (on the
    transport-failure path, were ResponseError construction to succeed)
    the synthesized ResponseError envelope. -/
inductive SendOutcome : Type where
  | resp : PyResponse → SendOutcome
  | envelope : ResponseErrorV → SendOutcome

/-- send_request(method, url, ...): resets the violation slot, records
    method and target path, then either handles the transport response or
    the raised RequestException.  A non-ok response synthesizes a
    ResponseError from the response into self.response_error and falls
    through to return the response itself.  A raised RequestException is
    turned into an errorCode/errorMessage dict and a ResponseError built
    from it (whose construction, in the current code, raises
    AttributeError on the missing _src before the envelope can be stored
    or returned).  On an ok response with validate_json and a nonempty
    body, the body must decode to a dict (a list is tolerated through its
    first element); any failure of that shape check is routed to
    process_contract_exception with no dto.  Exceptions escaping the
    except clauses propagate to the caller. -/
def send_request (st : DriverState) (method url : String) (transport : TransportResult)
    (validate_json : Bool) : Except PyErr (DriverState × SendOutcome) :=
  match ContractViolation.fromData (SylphDataDict.make (.generator .AUTOMATION_CODE)
      [("dto_name", .null), ("dto_path", .null), ("dto_exc", .null)]) with
  | .error e => .error e
  | .ok cv0 =>
    let st := { st with contract_error := cv0,
                        method := .strv method,
                        target := .strv (urlsplitPath url) }
    match transport with
    | .raises exc =>
      match exc.requestUrl with
      | none => .error (.attributeError "url")
      | some u =>
        match exc.firstArgFirstArg with
        | none => .error .indexError
        | some a0 =>
          let entries : List (String × SVal) :=
            [("errorCode", .strv exc.typeName), ("errorMessage", .strv (u ++ ("\n" ++ a0)))]
          match ResponseError.fromData (SylphDataDict.make (.generator .API_REQUEST) entries) with
          | .error e => .error e
          | .ok env => .ok ({ st with response_error := some env }, .envelope env)
    | .resp r =>
      if r.ok then
        if validate_json && r.content.nonEmpty then
          match r.content with
          | .raw _ =>
            (process_contract_exception st { typeName := "JSONDecodeError", args := [jsonDecodeArg] } none).map
              (fun st2 => (st2, .resp r))
          | .json v =>
            match v with
            | .dictv _ => .ok (st, .resp r)
            | .listv [] =>
              (process_contract_exception st { typeName := "IndexError", args := ["list index out of range"] } none).map
                (fun st2 => (st2, .resp r))
            | .listv (x :: _) =>
              if isDictV x then .ok (st, .resp r)
              else
                (process_contract_exception st
                    { typeName := "Exception", args := ["Response content is not a dictionary: " ++ pyStrOf x] } none).map
                  (fun st2 => (st2, .resp r))
            | w =>
              (process_contract_exception st
                  { typeName := "Exception", args := ["Response content is not a dictionary: " ++ pyStrOf w] } none).map
                (fun st2 => (st2, .resp r))
        else .ok (st, .resp r)
      else
        match ResponseError.fromResponse r with
        | .error e => .error e
        | .ok env => .ok ({ st with response_error := some env }, .resp r)

/-- SylphApiClient.deserialize(response, dto): guarded by response.ok or
    hasattr(response, status_code) (always true for both real responses
    and ResponseError envelopes, kept as an explicit argument); DTO
    construction is abstracted by its outcome; a construction failure is
    routed to process_contract_exception with the dto and yields the
    implicit None return. -/
def deserialize {A : Type} (st : DriverState) (hasOkOrStatus : Bool)
    (ctor : Except PyExcV A) (dto : DtoInfo) : Except PyErr (DriverState × Option A) :=
  if hasOkOrStatus then
    match ctor with
    | .ok a => .ok (st, some a)
    | .error exc =>
      match process_contract_exception st exc (some dto) with
      | .error e => .error e
      | .ok st2 => .ok (st2, none)
  else .ok (st, none)

/-! ## Retry policy (retriable, wrappers.py, over tenacity semantics) -/

/-- Outcome of one execution of a retry-wrapped action. -/
inductive AttemptR (A : Type) : Type where
  | ok : A → AttemptR A
  | exc : PyExcV → AttemptR A

/-- What a retry-wrapped call raises: the original exception when the
    retry condition rejects it, or the tenacity RetryError wrapping the
    last attempt's exception when the attempt budget is exhausted
    (retriable leaves reraise at its default False). -/
inductive RaisedR : Type where
  | plain : PyExcV → RaisedR
  | retryError : PyExcV → RaisedR
deriving DecidableEq

/-- Trace of one run of a retry-wrapped action: how many times the action
    ran, the sleeps taken between attempts, and the final outcome. -/
structure RunTrace (A : Type) : Type where
  calls : Nat
  sleeps : List Nat
  outcome : Except RaisedR A

/-- Retry condition installed by retriable: with upon_exception it is
    retry_if_exception_type(RetryTrigger), modelled by a type-name match;
    without it tenacity retries on every exception. -/
def shouldRetry (upon_exception : Bool) (e : PyExcV) : Bool :=
  if upon_exception then e.typeName == "RetryTrigger" else true

/-- Modelled from the tenacity library documentation (an external
    dependency of wrappers.py): the attempt loop under stop_after_attempt
    and wait_fixed.  n is the 1-based attempt ordinal and fuel the
    remaining attempt budget including the current attempt.  A successful
    attempt returns; a failing attempt whose exception matches the retry
    condition raises RetryError once the budget is exhausted, else sleeps
    the fixed interval and retries; a non-matching exception is re-raised
    as itself. -/
def tenacityGo {A : Type} (interval : Nat) (upon_exception : Bool)
    (action : Nat → AttemptR A) (n : Nat) : Nat → RunTrace A
  | 0 =>
    match action n with
    | .ok a => { calls := 1, sleeps := [], outcome := .ok a }
    | .exc e =>
      if shouldRetry upon_exception e then
        { calls := 1, sleeps := [], outcome := .error (.retryError e) }
      else { calls := 1, sleeps := [], outcome := .error (.plain e) }
  | fuel + 1 =>
    match action n with
    | .ok a => { calls := 1, sleeps := [], outcome := .ok a }
    | .exc e =>
      if shouldRetry upon_exception e then
        match fuel with
        | 0 => { calls := 1, sleeps := [], outcome := .error (.retryError e) }
        | f + 1 =>
          let r := tenacityGo interval upon_exception action (n + 1) (f + 1)
          { calls := r.calls + 1, sleeps := interval :: r.sleeps, outcome := r.outcome }
      else { calls := 1, sleeps := [], outcome := .error (.plain e) }

/-- One call through the decorator built by retriable(max_retries,
    retry_interval, upon_exception): stop_after_attempt(max_retries) and
    wait_fixed(retry_interval), starting at attempt 1. -/
def retriableRun {A : Type} (max_retries retry_interval : Nat) (upon_exception : Bool)
    (action : Nat → AttemptR A) : RunTrace A :=
  tenacityGo retry_interval upon_exception action 1 max_retries

/-! ## SylphDataObject equality and hashing -/

mutual

/-- Structural Boolean equality of (normalized) Python values. -/
def svalBeq : SVal → SVal → Bool
  | .null, .null => true
  | .boolv a, .boolv b => a == b
  | .intv a, .intv b => a == b
  | .strv a, .strv b => a == b
  | .listv xs, .listv ys => svalListBeq xs ys
  | .dictv es, .dictv fs => entriesBeq es fs
  | .objv c1 s1 a1, .objv c2 s2 a2 => c1 == c2 && entriesBeq s1 s2 && entriesBeq a1 a2
  | _, _ => false

/-- Pointwise Boolean equality of value lists. -/
def svalListBeq : List SVal → List SVal → Bool
  | [], [] => true
  | x :: xs, y :: ys => svalBeq x y && svalListBeq xs ys
  | _, _ => false

/-- Pointwise Boolean equality of entry lists. -/
def entriesBeq : List (String × SVal) → List (String × SVal) → Bool
  | [], [] => true
  | (k1, v1) :: r1, (k2, v2) :: r2 => k1 == k2 && svalBeq v1 v2 && entriesBeq r1 r2
  | _, _ => false

end

/-- Ordered insertion of an entry by key (String order). -/
def insEntry (p : String × SVal) : List (String × SVal) → List (String × SVal)
  | [] => [p]
  | q :: rest =>
    match compare p.1 q.1 with
    | .gt => q :: insEntry p rest
    | _ => p :: q :: rest

/-- Key-sorted copy of an entry list: the canonical order Python dict
    equality is insensitive to. -/
def sortEntries : List (String × SVal) → List (String × SVal)
  | [] => []
  | p :: rest => insEntry p (sortEntries rest)

mutual

/-- Canonical form of a value under Python == as it participates in a
    compared dump_data output: booleans merge with integers (True == 1),
    dictionaries sort by key, and a nested SylphDataObject keeps its class
    name (its __eq__ checks the class) while its source entries are
    compared through its own dump_data rendering; attributes never
    participate. -/
def normDumped : SVal → SVal
  | .null => .null
  | .boolv b => .intv (if b then 1 else 0)
  | .intv n => .intv n
  | .strv s => .strv s
  | .listv xs => .listv (normListPlain xs)
  | .dictv es => .dictv (sortEntries (normEntriesPlain es))
  | .objv c s _ => .objv c (sortEntries (normInDump s)) []

/-- Canonical forms of the elements of a list value. -/
def normListPlain : List SVal → List SVal
  | [] => []
  | v :: rest => normDumped v :: normListPlain rest

/-- Canonical forms of the entries of a plain dictionary value. -/
def normEntriesPlain : List (String × SVal) → List (String × SVal)
  | [] => []
  | (k, v) :: rest => (k, normDumped v) :: normEntriesPlain rest

/-- Canonical forms of source entries as rendered by dump_data: a value
    that is itself a data object is replaced by the class-less dictionary
    of its own rendered source (dump_data recursion), every other value is
    canonicalized in place. -/
def normInDump : List (String × SVal) → List (String × SVal)
  | [] => []
  | (k, .objv _ s _) :: rest => (k, .dictv (sortEntries (normInDump s))) :: normInDump rest
  | (k, v) :: rest => (k, normDumped v) :: normInDump rest

end

/-- Python == on two dump_data outputs: order-insensitive dictionary
    equality with recursively compared values. -/
def pyDictEqB (d1 d2 : List (String × SVal)) : Bool :=
  entriesBeq (sortEntries (normEntriesPlain d1)) (sortEntries (normEntriesPlain d2))

/-- Subclass test for isinstance(other, self.__class__) over the class
    hierarchy of data_obj.py (SylphCollectionDataObject, ResponseError and
    ContractViolation extend SylphDataObject). -/
def isSubclassOf (c parent : String) : Bool :=
  c == parent ||
    (parent == "SylphDataObject" &&
      (c == "SylphCollectionDataObject" || c == "ResponseError" || c == "ContractViolation"))

/-- SylphDataObject.__eq__(self, other): False unless other is an instance
    of self's class; otherwise the comparison of the two dump_data
    outputs, with the bare except turning any dump failure into False. -/
def pyEq (self other : SylphDataObjectV) : Bool :=
  if isSubclassOf other.className self.className then
    match SylphDataObject.dump_data self, SylphDataObject.dump_data other with
    | .ok d1, .ok d2 => pyDictEqB d1 d2
    | _, _ => false
  else false

/-- Comma-joined single-quoted key renderings, as str() shows dict_keys
    content. -/
def reprKeys : List (String × SVal) → String
  | [] => ""
  | [(k, _)] => sq ++ k ++ sq
  | (k, _) :: rest => sq ++ k ++ sq ++ ", " ++ reprKeys rest

/-- The string SylphDataObject.__hash__ feeds to hash():
    str(self.metadata.source_data.keys()), which renders the key list in
    insertion order.  A source_data without a keys() attribute raises
    AttributeError, as in dump_data. -/
def SylphDataObject.hashBasis (o : SylphDataObjectV) : Except PyErr String :=
  match o.metadata.source_data with
  | .dict es => .ok ("dict_keys([" ++ reprKeys es ++ "])")
  | _ => .error (.attributeError "keys")

/-- An envelope of a given class built over a dictionary payload (the
    metadata state any data-path construction of that class leaves). -/
def mkEnvelope (cn : String) (es : List (String × SVal)) : SylphDataObjectV :=
  { className := cn
    metadata := { data_generator := some .AUTOMATION_CODE, source_data := .dict es } }

/-! ## Spec-side mirrors and concrete fixtures -/

/-- Modelled from the spec (round-trip clause of the testable properties):
    the structure deep-equal to the payload with any value that is itself
    a data object rendered via its own dump_data(). -/
def renderPayload : List (String × SVal) → List (String × SVal)
  | [] => []
  | (k, .objv _ s _) :: rest => (k, .dictv (dumpEntries s)) :: renderPayload rest
  | (k, v) :: rest => (k, v) :: renderPayload rest

/-- The needle occurs inside the haystack (string containment as append
    decomposition). -/
def strContainsP (hay needle : String) : Prop :=
  ∃ p q : String, hay = p ++ (needle ++ q)

/-- A 404 response whose body is valid JSON (the usual API error shape). -/
def c1RespJson : PyResponse :=
  { ok := false
    status_code := 404
    reason := some "Not Found"
    text := "{}"
    url := "https://h.example.com/api/v1/pets"
    content := .json (.dictv [("errorCode", .strv "PETS-404")]) }

/-- A 404 response whose body is not valid JSON (an HTML error page). -/
def c1RespRaw : PyResponse :=
  { ok := false
    status_code := 404
    reason := some "Not Found"
    text := "<html>nope</html>"
    url := "https://h.example.com/api/v1/pets"
    content := .raw "<html>nope</html>" }

/-- A connection failure as requests raises it: a ConnectionError whose
    request.url and args[0].args[0] are both present. -/
def c2Exc : ReqExcV :=
  { typeName := "ConnectionError"
    requestUrl := some "https://h.example.com/api/v1/pets"
    firstArgFirstArg := some "Connection refused" }

/-- The object SylphDataObject() built with neither argument leaves
    behind. -/
def bareObject : SylphDataObjectV :=
  { metadata := { data_generator := some .AUTOMATION_CODE, source_data := .emptyList } }

/-- A RetryTrigger exception instance. -/
def c9Trig : PyExcV := { typeName := "RetryTrigger", args := ["boom"] }

/-- A ContractViolation envelope over the all-None payload (the state a
    data-path ContractViolation construction leaves; the class is a
    subclass of SylphDataObject). -/
def c8CvEnv : SylphDataObjectV :=
  mkEnvelope "ContractViolation" [("dto_name", .null), ("dto_path", .null), ("dto_exc", .null)]

/-- A plain SylphDataObject envelope over the same payload. -/
def c8PlainEnv : SylphDataObjectV :=
  mkEnvelope "SylphDataObject" [("dto_name", .null), ("dto_path", .null), ("dto_exc", .null)]

/-- Envelope over the payload with keys a then b. -/
def c8EnvAB : SylphDataObjectV := mkEnvelope "SylphDataObject" [("a", .intv 1), ("b", .intv 2)]

/-- Envelope over the same mapping with insertion order b then a. -/
def c8EnvBA : SylphDataObjectV := mkEnvelope "SylphDataObject" [("b", .intv 2), ("a", .intv 1)]

/-! ## Helper lemmas -/

theorem strContainsP_left (n q : String) : strContainsP (n ++ q) n :=
  ⟨"", q, by rw [String.empty_append]⟩

theorem strContainsP_here (p n q : String) : strContainsP (p ++ (n ++ q)) n := ⟨p, q, rfl⟩

theorem strContainsP_self (n : String) : strContainsP n n :=
  ⟨"", "", by rw [String.empty_append, String.append_empty]⟩

theorem strContainsP_appendRight (a : String) {b n : String} (h : strContainsP b n) :
    strContainsP (a ++ b) n := by
  obtain ⟨p, q, hb⟩ := h
  exact ⟨a ++ p, q, by rw [hb, String.append_assoc]⟩

theorem keysOf_append (xs ys : List (String × SVal)) :
    keysOf (xs ++ ys) = keysOf xs ++ keysOf ys := by
  simp [keysOf]

theorem dAssign_not_mem (es : List (String × SVal)) (key : String) (v : SVal)
    (h : key ∉ keysOf es) : dAssign es key v = es ++ [(key, v)] := by
  induction es with
  | nil => rfl
  | cons hd tl ih =>
    obtain ⟨k, w⟩ := hd
    simp only [keysOf, List.map_cons, List.mem_cons] at h
    push_neg at h
    obtain ⟨h1, h2⟩ := h
    have hk : ¬ (k = key) := fun hke => h1 hke.symm
    simp only [dAssign, if_neg hk, List.cons_append, List.cons.injEq, true_and]
    exact ih h2

theorem pyDictCopy_go : ∀ (data acc : List (String × SVal)),
    (keysOf (acc ++ data)).Nodup →
    List.foldl (fun acc kv => dAssign acc kv.1 kv.2) acc data = acc ++ data := by
  intro data
  induction data with
  | nil => intro acc _; simp
  | cons hd tl ih =>
    intro acc h
    obtain ⟨k, v⟩ := hd
    rw [keysOf_append] at h
    rw [List.nodup_append] at h
    have hk : k ∉ keysOf acc := by
      intro hmem
      exact h.2.2 hmem (by simp [keysOf])
    rw [List.foldl_cons]
    have hrec : (keysOf ((acc ++ [(k, v)]) ++ tl)).Nodup := by
      rw [List.append_assoc]
      rw [keysOf_append, List.nodup_append]
      refine ⟨h.1, ?_, ?_⟩
      · have := h.2.1
        simpa [keysOf] using this
      · intro x hx hx2
        have hx2m : x ∈ keysOf ((k, v) :: tl) := by
          simpa [keysOf] using hx2
        exact h.2.2 hx hx2m
    have := ih (acc ++ [(k, v)]) hrec
    rw [dAssign_not_mem _ _ _ hk, this, List.append_assoc]
    rfl

theorem pyDictCopy_nodup (data : List (String × SVal)) (h : (keysOf data).Nodup) :
    pyDictCopy data = data := by
  have := pyDictCopy_go data [] (by simpa using h)
  simpa [pyDictCopy] using this

theorem dumpEntries_eq_render : ∀ P : List (String × SVal), dumpEntries P = renderPayload P := by
  intro P
  induction P with
  | nil => rfl
  | cons hd tl ih =>
    obtain ⟨k, v⟩ := hd
    cases v <;> simp [dumpEntries, dumpTop, renderPayload, ih]

/-! ## Claim theorems -/

/-- C7: try_get_api_version resolves https://x.example.com/api/v2.1.0/foo
    to (2, 1, 0) and https://x.example.com/foo to the all-absent triple;
    any failure of the parsing body yields the all-absent triple without
    raising (in particular whenever the path lacks an api/v segment); and
    each dotted component becomes an integer exactly when int() parses it,
    else is kept as the raw string. -/
theorem c7_version_resolution :
    try_get_api_version "https://x.example.com/api/v2.1.0/foo"
        = (some (.intv 2), some (.intv 1), some (.intv 0))
    ∧ try_get_api_version "https://x.example.com/foo" = (none, none, none)
    ∧ (∀ (url : String) (e : PyErr), tryGetApiVersionBody url = .error e →
        try_get_api_version url = (none, none, none))
    ∧ (∀ url : String, containsSub (chars "api/v") (urlsplitPathL (chars url)) = false →
        try_get_api_version url = (none, none, none))
    ∧ (∀ (s : String) (n : Int), pyParseInt (chars s) = some n → set_version s = .intv n)
    ∧ (∀ s : String, pyParseInt (chars s) = none → set_version s = .strv s) := by
  refine ⟨rfl, rfl, ?_, ?_, ?_, ?_⟩
  · intro url e h
    simp [try_get_api_version, h]
  · intro url h
    simp [try_get_api_version, tryGetApiVersionBody, h]
  · intro s n h
    simp [set_version, h]
  · intro s h
    simp [set_version, h]

/-- C7 witness: the no-segment clause and the numeric-component clause of
    c7_version_resolution at concrete inputs. -/
theorem c7_version_resolution_witness :
    try_get_api_version "https://x.example.com/foo/bar" = (none, none, none)
    ∧ set_version "12" = .intv 12 :=
  ⟨c7_version_resolution.2.2.2.1 "https://x.example.com/foo/bar" rfl,
   c7_version_resolution.2.2.2.2.1 "12" 12 rfl⟩

/-- C3: building a SylphDataObject from a SylphDataDict wrapping payload P
    (under any data_source that equips the dict with metadata) and calling
    dump_data returns exactly P with each data-object value rendered via
    its own dump_data. -/
theorem c3_dump_round_trip (ds : DataSourceArg) (P : List (String × SVal))
    (hnd : (keysOf P).Nodup)
    (hm : (SylphDataDict.make ds P).metadata.isSome = true) :
    (SylphDataObject.init none (some (.sylph (SylphDataDict.make ds P)))).map
        SylphDataObject.dump_data = .ok (.ok (renderPayload P)) := by
  cases ds with
  | generator g =>
    simp [SylphDataDict.make, SylphDataObject.init, SylphDataObject.dump_data, Except.map,
      pyDictCopy_nodup _ hnd, dumpEntries_eq_render]
  | metadata m =>
    simp [SylphDataDict.make, SylphDataObject.init, SylphDataObject.dump_data, Except.map,
      pyDictCopy_nodup _ hnd, dumpEntries_eq_render]
  | otherObj => simp [SylphDataDict.make] at hm

/-- C3 witness: the round trip at a concrete payload with a nested data
    object. -/
theorem c3_dump_round_trip_witness :
    (SylphDataObject.init none (some (.sylph (SylphDataDict.make (.generator .AUTOMATION_CODE)
        [("a", .intv 1), ("b", .objv "Inner" [("c", .null)] [("c", .null)])])))).map
        SylphDataObject.dump_data
      = .ok (.ok [("a", .intv 1), ("b", .dictv [("c", .null)])]) :=
  c3_dump_round_trip (.generator .AUTOMATION_CODE)
    [("a", .intv 1), ("b", .objv "Inner" [("c", .null)] [("c", .null)])]
    (by decide) rfl

/-- C10: SylphDataObject() with neither a response nor a data dict yields
    an automation-tagged object whose stored source payload is the Python
    list [] rather than a mapping, and dump_data on that object raises
    AttributeError instead of returning an empty structure. -/
theorem c10_bare_object :
    SylphDataObject.init none none = .ok bareObject
    ∧ bareObject.metadata.data_generator = some .AUTOMATION_CODE
    ∧ bareObject.metadata.source_data = .emptyList
    ∧ SylphDataObject.dump_data bareObject = .error (.attributeError "keys") :=
  ⟨rfl, rfl, rfl, rfl⟩

/-- C6 counterexample: a data argument lacking SylphDataDict metadata — a
    SylphDataDict built with an unrecognized data_source, which leaves its
    metadata attribute unset — makes construction raise AttributeError at
    copy.deepcopy(data.metadata), not the SylphObjectInitException the
    claim requires. -/
theorem c6_counterexample :
    SylphDataObject.init none (some (.sylph (SylphDataDict.make .otherObj [("x", .null)])))
        = .error (.attributeError "metadata")
    ∧ ¬ ∃ m : String,
        SylphDataObject.init none (some (.sylph (SylphDataDict.make .otherObj [("x", .null)])))
          = .error (.sylphObjectInit m) := by
  refine ⟨rfl, ?_⟩
  rintro ⟨m, hm⟩
  exact PyErr.noConfusion (Except.error.inj hm)

/-- C6 amended: supplying both a response and a data dict always raises
    SylphObjectInitException immediately at construction, and so does a
    data argument that is not a SylphDataDict instance; a SylphDataDict
    instance lacking its metadata attribute instead fails immediately with
    AttributeError. -/
theorem c6_construction_misuse :
    (∀ (r : PyResponse) (d : DataArg),
      SylphDataObject.init (some r) (some d)
        = .error (.sylphObjectInit "Must be either a Response or a SylphDataDict"))
    ∧ SylphDataObject.init none (some .nonSylph)
        = .error (.sylphObjectInit "If data is provided, it must be a SylphDataDict")
    ∧ (∀ es : List (String × SVal),
        SylphDataObject.init none (some (.sylph { metadata := none, entries := es }))
          = .error (.attributeError "metadata")) :=
  ⟨fun _ _ => rfl, rfl, fun _ => rfl⟩

/-- C6 witness: the missing-metadata branch of c6_construction_misuse at
    a concrete entry list. -/
theorem c6_construction_misuse_witness :
    SylphDataObject.init none (some (.sylph { metadata := none, entries := [("x", .null)] }))
      = .error (.attributeError "metadata") :=
  c6_construction_misuse.2.2 [("x", .null)]

/-- C1 counterexample: a non-2xx response whose body is valid JSON makes
    send_request raise AttributeError out of ResponseError construction
    (self._src is never assigned on the successful-decode path), so the
    call neither returns a ResponseError nor avoids raising. -/
theorem c1_counterexample :
    send_request SylphApiDriver.initState "GET" "https://h.example.com/api/v1/pets"
        (.resp c1RespJson) true = .error (.attributeError "_src") := rfl

/-- C1 amended: on a non-2xx response whose body is not valid JSON,
    send_request stores in the driver response_error slot a ResponseError
    whose ok is false and whose status_code and reason equal the
    response's, and returns the underlying response itself without
    raising; on a non-2xx response whose body is valid JSON the call
    raises AttributeError from ResponseError construction. -/
theorem c1_http_failure (st : DriverState) (method url : String) (r : PyResponse)
    (vj : Bool) (hok : r.ok = false) :
    (∀ s : String, r.content = .raw s →
      ∃ (env : ResponseErrorV) (st2 : DriverState),
        send_request st method url (.resp r) vj = .ok (st2, .resp r)
        ∧ st2.response_error = some env
        ∧ env.ok = false
        ∧ env.status_code = .intv r.status_code
        ∧ env.reason = (match r.reason with | some s2 => .strv s2 | none => .null))
    ∧ (∀ v : SVal, r.content = .json v →
        send_request st method url (.resp r) vj = .error (.attributeError "_src")) := by
  obtain ⟨ok, sc, rs, tx, u, hd, ct⟩ := r
  simp only at hok
  subst hok
  constructor
  · intro s hc
    simp only at hc
    subst hc
    exact ⟨_, _, rfl, rfl, rfl, rfl, rfl⟩
  · intro v hc
    simp only at hc
    subst hc
    rfl

/-- C1 witness: the non-JSON-body branch of c1_http_failure at the
    concrete 404 HTML response. -/
theorem c1_http_failure_witness :
    ∃ (env : ResponseErrorV) (st2 : DriverState),
      send_request SylphApiDriver.initState "GET" "https://h.example.com/api/v1/pets"
          (.resp c1RespRaw) true = .ok (st2, .resp c1RespRaw)
      ∧ st2.response_error = some env
      ∧ env.ok = false
      ∧ env.status_code = .intv c1RespRaw.status_code
      ∧ env.reason = (match c1RespRaw.reason with | some s2 => .strv s2 | none => .null) :=
  (c1_http_failure SylphApiDriver.initState "GET" "https://h.example.com/api/v1/pets"
      c1RespRaw true rfl).1 "<html>nope</html>" rfl

/-- C2: a transport-level RequestException (here a ConnectionError with
    its request and args payload in the usual shape) does not produce the
    intended ResponseError return value: building ResponseError(data=...)
    inside the except handler reads the never-assigned self._src, and the
    resulting AttributeError propagates to the caller of send_request. -/
theorem c2_transport_failure_bug :
    send_request SylphApiDriver.initState "GET" "https://h.example.com/api/v1/pets"
        (.raises c2Exc) true = .error (.attributeError "_src") := rfl

/-- C4 counterexample: a DTO construction failure whose exception carries
    an empty args tuple is not recorded: process_contract_exception reads
    exc.args[0] and the IndexError propagates out of deserialize. -/
theorem c4_counterexample :
    deserialize (A := Unit) SylphApiDriver.initState true
        (.error { typeName := "Exception", args := [] })
        { name := "PetDto", path := "dtos.PetDto" }
      = .error .indexError := rfl

/-- C4 amended: a deserialize whose DTO construction succeeds leaves the
    state untouched, and validate_contract does not raise while the
    recorded violation has a None exception description; validate_contract
    succeeds exactly when that description is None; and a construction
    failure whose exception carries at least one argument is recorded (not
    propagated), after which validate_contract raises an AssertionError
    whose message contains the HTTP method, the target path and the
    recorded issue text. -/
theorem c4_deferred_contract_assertion :
    (∀ (A : Type) (st : DriverState) (a : A) (dto : DtoInfo),
      deserialize st true (.ok a) dto = .ok (st, some a))
    ∧ (∀ st : DriverState, validate_contract st = .ok () ↔ st.contract_error.dto_exc = .null)
    ∧ (∀ (A : Type) (st : DriverState) (exc : PyExcV) (dto : DtoInfo) (a : String)
        (rest : List String), exc.args = a :: rest →
        ∃ st2 : DriverState,
          deserialize (A := A) st true (.error exc) dto = .ok (st2, none)
          ∧ st2.method = st.method
          ∧ st2.target = st.target
          ∧ st2.contract_error.dto_name = .strv dto.name
          ∧ st2.contract_error.dto_exc = .strv (exc.typeName ++ (": " ++ a))
          ∧ ∃ m : String,
              validate_contract st2 = .error (.assertionError m)
              ∧ strContainsP m (pyStrOf st.method)
              ∧ strContainsP m (pyStrOf st.target)
              ∧ strContainsP m (exc.typeName ++ (": " ++ a))) := by
  refine ⟨fun _ _ _ _ => rfl, ?_, ?_⟩
  · intro st
    cases hc : st.contract_error.dto_exc <;> simp [validate_contract, hc]
  · intro A st exc dto a rest h
    obtain ⟨tn, args⟩ := exc
    simp only at h
    subst h
    refine ⟨_, rfl, rfl, rfl, rfl, rfl, ?_⟩
    by_cases hn : dto.name = ""
    · refine ⟨pyStrOf st.method ++ (" " ++ (pyStrOf st.target
          ++ ("\n         Issue: " ++ (tn ++ (": " ++ a))))), ?_, ?_, ?_, ?_⟩
      · simp [validate_contract, pyTruthy, hn, deserialize, process_contract_exception,
          ContractViolation.fromData, SylphDataDict.make, pyStrOf]
      · exact strContainsP_left _ _
      · exact strContainsP_appendRight _ (strContainsP_appendRight _ (strContainsP_left _ _))
      · exact strContainsP_appendRight _ (strContainsP_appendRight _
          (strContainsP_appendRight _ (strContainsP_appendRight _ (strContainsP_self _))))
    · refine ⟨pyStrOf st.method ++ (" " ++ (pyStrOf st.target
          ++ ("\n         Issue: " ++ (dto.name ++ (" " ++ (tn ++ (": " ++ a))))))), ?_, ?_, ?_, ?_⟩
      · simp [validate_contract, pyTruthy, hn, deserialize, process_contract_exception,
          ContractViolation.fromData, SylphDataDict.make, pyStrOf]
      · exact strContainsP_left _ _
      · exact strContainsP_appendRight _ (strContainsP_appendRight _ (strContainsP_left _ _))
      · exact strContainsP_appendRight _ (strContainsP_appendRight _
          (strContainsP_appendRight _ (strContainsP_appendRight _
            (strContainsP_appendRight _ (strContainsP_appendRight _ (strContainsP_self _))))))

/-- C4 witness: the recorded-violation branch of
    c4_deferred_contract_assertion at a concrete driver state and a
    concrete one-argument TypeError. -/
theorem c4_deferred_contract_assertion_witness :
    ∃ st2 : DriverState,
      deserialize (A := Unit)
          { method := .strv "GET", target := .strv "/api/v1/pets" } true
          (.error { typeName := "TypeError", args := ["missing field name"] })
          { name := "PetDto", path := "dtos.PetDto" }
        = .ok (st2, none)
      ∧ st2.method = DriverState.method { method := .strv "GET", target := .strv "/api/v1/pets" }
      ∧ st2.target = DriverState.target { method := .strv "GET", target := .strv "/api/v1/pets" }
      ∧ st2.contract_error.dto_name = .strv "PetDto"
      ∧ st2.contract_error.dto_exc = .strv ("TypeError" ++ (": " ++ "missing field name"))
      ∧ ∃ m : String,
          validate_contract st2 = .error (.assertionError m)
          ∧ strContainsP m (pyStrOf (DriverState.method
              { method := .strv "GET", target := .strv "/api/v1/pets" }))
          ∧ strContainsP m (pyStrOf (DriverState.target
              { method := .strv "GET", target := .strv "/api/v1/pets" }))
          ∧ strContainsP m ("TypeError" ++ (": " ++ "missing field name")) :=
  c4_deferred_contract_assertion.2.2 Unit
    { method := .strv "GET", target := .strv "/api/v1/pets" }
    { typeName := "TypeError", args := ["missing field name"] }
    { name := "PetDto", path := "dtos.PetDto" } "missing field name" [] rfl

theorem auditF_eq_pure : ∀ fuel : Nat,
    (∀ cn attrs es acc, auditEntriesF fuel cn attrs es acc = acc ++ auditPureF fuel cn attrs es)
    ∧ (∀ cn attrs sub acc, auditSubF fuel cn attrs sub acc = acc ++ auditSubPureF fuel cn attrs sub) := by
  intro fuel
  induction fuel with
  | zero =>
    constructor <;> intro cn attrs es acc <;>
      simp [auditEntriesF, auditSubF, auditPureF, auditSubPureF]
  | succ f ih =>
    obtain ⟨ihE, ihS⟩ := ih
    constructor
    · intro cn attrs es acc
      cases es with
      | nil => simp [auditEntriesF, auditPureF]
      | cons hd rest =>
        obtain ⟨k, v⟩ := hd
        rcases hl : lookupA attrs k with _ | w
        · cases v <;> simp [auditEntriesF, auditPureF, hl, ihE, ihS, List.append_assoc]
        · cases w <;> simp [auditEntriesF, auditPureF, hl, ihE, ihS, List.append_assoc]
    · intro cn attrs sub acc
      cases sub with
      | nil => simp [auditSubF, auditSubPureF]
      | cons hd rest =>
        obtain ⟨sk, w⟩ := hd
        rcases hl : lookupA attrs sk with _ | w2
        · simp [auditSubF, auditSubPureF, hl, ihE, ihS, List.append_assoc]
        · cases w2 <;> simp [auditSubF, auditSubPureF, hl, ihE, ihS, List.append_assoc]

theorem auditPure_empty_iff_covers : ∀ fuel : Nat,
    (∀ cn attrs es, auditPureF fuel cn attrs es = [] ↔ coversEntriesF fuel attrs es = true)
    ∧ (∀ cn attrs sub, auditSubPureF fuel cn attrs sub = [] ↔ coversSubF fuel attrs sub = true) := by
  intro fuel
  induction fuel with
  | zero =>
    constructor <;> intro cn attrs es <;>
      simp [auditPureF, auditSubPureF, coversEntriesF, coversSubF]
  | succ f ih =>
    obtain ⟨ihE, ihS⟩ := ih
    constructor
    · intro cn attrs es
      cases es with
      | nil => simp [auditPureF, coversEntriesF]
      | cons hd rest =>
        obtain ⟨k, v⟩ := hd
        rcases hl : lookupA attrs k with _ | w
        · cases v <;>
            simp [auditPureF, coversEntriesF, hl, ihE, ihS, List.append_eq_nil,
              Bool.and_eq_true, and_comm]
        · cases w <;>
            simp [auditPureF, coversEntriesF, hl, ihE, ihS, List.append_eq_nil,
              Bool.and_eq_true, and_comm]
    · intro cn attrs sub
      cases sub with
      | nil => simp [auditSubPureF, coversSubF]
      | cons hd rest =>
        obtain ⟨sk, w⟩ := hd
        rcases hl : lookupA attrs sk with _ | w2
        · simp [auditSubPureF, coversSubF, hl, ihE, ihS, List.append_eq_nil,
            Bool.and_eq_true, and_comm]
        · cases w2 <;>
            simp [auditSubPureF, coversSubF, hl, ihE, ihS, List.append_eq_nil,
              Bool.and_eq_true, and_comm]

/-- C5: the audit of an envelope of class T backed by the payload with
    keys a and b when only attribute a is exposed returns exactly [T.b];
    the audit result is empty exactly when the declared type covers the
    payload (spec-side covers predicate); a key whose same-named attribute
    is a nested data object makes the audit recurse into that object; a
    key without an attribute whose value is not a mapping is reported
    qualified as cn.key; and an unmatched sub-key of a mapping-valued
    entry is reported qualified as cn.subkey. -/
theorem c5_unmapped_fields_audit :
    get_unprocessed_data "T" [("a", .intv 1), ("b", .intv 2)] [("a", .intv 1)] = ["T.b"]
    ∧ (∀ (cn : String) (src attrs : List (String × SVal)),
        get_unprocessed_data cn src attrs = [] ↔ coversPayload src attrs = true)
    ∧ (∀ (fuel : Nat) (cn : String) (attrs : List (String × SVal)) (k : String) (v : SVal)
        (rest : List (String × SVal)) (acc : List String) (cn2 : String)
        (src2 attrs2 : List (String × SVal)),
        lookupA attrs k = some (.objv cn2 src2 attrs2) →
        auditEntriesF (fuel + 1) cn attrs ((k, v) :: rest) acc
          = auditEntriesF fuel cn attrs rest (auditEntriesF fuel cn2 attrs2 src2 acc))
    ∧ (∀ (fuel : Nat) (cn : String) (attrs : List (String × SVal)) (k : String) (v : SVal)
        (rest : List (String × SVal)) (acc : List String),
        lookupA attrs k = none → isDictV v = false →
        auditEntriesF (fuel + 1) cn attrs ((k, v) :: rest) acc
          = auditEntriesF fuel cn attrs rest (acc ++ [cn ++ "." ++ k]))
    ∧ (∀ (fuel : Nat) (cn : String) (attrs : List (String × SVal)) (sk : String) (w : SVal)
        (rest : List (String × SVal)) (acc : List String),
        lookupA attrs sk = none →
        auditSubF (fuel + 1) cn attrs ((sk, w) :: rest) acc
          = auditSubF fuel cn attrs rest (acc ++ [cn ++ "." ++ sk])) := by
  refine ⟨rfl, ?_, ?_, ?_, ?_⟩
  · intro cn src attrs
    rw [get_unprocessed_data, (auditF_eq_pure _).1, List.nil_append, coversPayload]
    exact (auditPure_empty_iff_covers _).1 cn attrs src
  · intro fuel cn attrs k v rest acc cn2 src2 attrs2 hl
    simp [auditEntriesF, hl]
  · intro fuel cn attrs k v rest acc hl hd
    cases v <;> simp_all [auditEntriesF, isDictV]
  · intro fuel cn attrs sk w rest acc hl
    simp [auditSubF, hl]

/-- C5 witness: the nested-object recursion clause of
    c5_unmapped_fields_audit at a concrete envelope whose attribute n is a
    nested data object. -/
theorem c5_unmapped_fields_audit_witness :
    auditEntriesF 1 "T" [("n", .objv "N" [("q", .intv 1)] [])] [("n", .intv 7)] []
      = auditEntriesF 0 "T" [("n", .objv "N" [("q", .intv 1)] [])] []
          (auditEntriesF 0 "N" [] [("q", .intv 1)] []) :=
  c5_unmapped_fields_audit.2.2.1 0 "T" [("n", .objv "N" [("q", .intv 1)] [])] "n" (.intv 7)
    [] [] "N" [("q", .intv 1)] [] rfl

/-- C8 counterexample: a ContractViolation envelope and a plain
    SylphDataObject envelope over the same payload have literally equal
    dump_data outputs, yet the ContractViolation side of the comparison is
    False (the plain object is not an instance of ContractViolation), so
    envelope equality is not equivalent to dumped-data equality; the
    reverse comparison is even True, so the relation is asymmetric. -/
theorem c8_counterexample :
    SylphDataObject.dump_data c8CvEnv = SylphDataObject.dump_data c8PlainEnv
    ∧ pyEq c8CvEnv c8PlainEnv = false
    ∧ pyEq c8PlainEnv c8CvEnv = true := ⟨rfl, rfl, rfl⟩

/-- C8 amended: self == other holds exactly when other's class is self's
    class or a subclass of it and both dump_data calls succeed with
    Python-equal output; insertion order of the payload does not affect
    equality (dictionary comparison is order-insensitive); but the hashing
    basis str(source_data.keys()) renders the insertion-ordered key list,
    not the key set, so two equal envelopes over the same key set can feed
    different strings to hash(). -/
theorem c8_eq_hash_characterization :
    (∀ a b : SylphDataObjectV, pyEq a b = true ↔
      (isSubclassOf b.className a.className = true
        ∧ ∃ d1 d2 : List (String × SVal),
            SylphDataObject.dump_data a = .ok d1
            ∧ SylphDataObject.dump_data b = .ok d2
            ∧ pyDictEqB d1 d2 = true))
    ∧ pyEq c8EnvAB c8EnvBA = true
    ∧ ∃ sA sB : String,
        SylphDataObject.hashBasis c8EnvAB = .ok sA
        ∧ SylphDataObject.hashBasis c8EnvBA = .ok sB
        ∧ sA ≠ sB := by
  refine ⟨?_, rfl, ⟨_, _, rfl, rfl, by decide⟩⟩
  intro a b
  by_cases hsc : isSubclassOf b.className a.className = true
  · cases hda : SylphDataObject.dump_data a <;> cases hdb : SylphDataObject.dump_data b <;>
      simp [pyEq, hsc, hda, hdb]
  · simp [pyEq, hsc]

/-- C8 witness: the equality characterization of
    c8_eq_hash_characterization instantiated at the two same-mapping
    envelopes, whose equality yields the class test and the dump
    comparison. -/
theorem c8_eq_hash_characterization_witness :
    isSubclassOf c8EnvBA.className c8EnvAB.className = true
    ∧ ∃ d1 d2 : List (String × SVal),
        SylphDataObject.dump_data c8EnvAB = .ok d1
        ∧ SylphDataObject.dump_data c8EnvBA = .ok d2
        ∧ pyDictEqB d1 d2 = true :=
  (c8_eq_hash_characterization.1 c8EnvAB c8EnvBA).mp rfl

/-- C9 counterexample: a trigger-only retry policy of 3 attempts wrapping
    an action that always raises RetryTrigger does not propagate the final
    RetryTrigger failure itself: the caller receives a tenacity RetryError
    wrapping it (reraise is left False). -/
theorem c9_counterexample :
    (retriableRun (A := Unit) 3 5 true (fun _ => .exc c9Trig)).outcome
        ≠ .error (.plain c9Trig)
    ∧ (retriableRun (A := Unit) 3 5 true (fun _ => .exc c9Trig)).outcome
        = .error (.retryError c9Trig) := by
  refine ⟨?_, rfl⟩
  intro h
  exact RaisedR.noConfusion (Except.error.inj h)

/-- C9 amended: a trigger-only policy of 3 attempts wrapping an action
    that raises the retry trigger on every attempt runs the action exactly
    3 times with the fixed interval slept between attempts and then raises
    a RetryError wrapping the final failure; any non-trigger error on the
    first attempt propagates immediately, as itself, with no retry. -/
theorem c9_retry_policy (A : Type) (i : Nat) (e : PyExcV) (act : Nat → AttemptR A) :
    (e.typeName = "RetryTrigger" → (∀ n, act n = .exc e) →
      retriableRun 3 i true act
        = { calls := 3, sleeps := [i, i], outcome := .error (.retryError e) })
    ∧ (∀ maxr : Nat, e.typeName ≠ "RetryTrigger" → act 1 = .exc e →
        retriableRun maxr i true act
          = { calls := 1, sleeps := [], outcome := .error (.plain e) }) := by
  constructor
  · intro ht hact
    simp [retriableRun, tenacityGo, hact, shouldRetry, ht]
  · intro maxr ht hact
    have hb : (e.typeName == "RetryTrigger") = false := by
      simp [ht]
    cases maxr with
    | zero => simp [retriableRun, tenacityGo, hact, shouldRetry, hb]
    | succ m => simp [retriableRun, tenacityGo, hact, shouldRetry, hb]

/-- C9 witness: both branches of c9_retry_policy at concrete exceptions
    and actions. -/
theorem c9_retry_policy_witness :
    retriableRun (A := Unit) 3 5 true (fun _ => .exc c9Trig)
      = { calls := 3, sleeps := [5, 5], outcome := .error (.retryError c9Trig) }
    ∧ retriableRun (A := Unit) 4 7 true (fun _ => .exc { typeName := "ValueError", args := ["v"] })
      = { calls := 1, sleeps := [],
          outcome := .error (.plain { typeName := "ValueError", args := ["v"] }) } :=
  ⟨(c9_retry_policy Unit 5 c9Trig (fun _ => .exc c9Trig)).1 rfl (fun _ => rfl),
   (c9_retry_policy Unit 7 { typeName := "ValueError", args := ["v"] }
      (fun _ => .exc { typeName := "ValueError", args := ["v"] })).2 4 (by decide) rfl⟩

end Sylph
